import Mathlib

/-!
# VibeDuet real-time session engine: verification development

Shallow embedding of the core of the VibeDuet repository
(src/components/HomeView.tsx, which holds both the HomeView and ArenaView
components, plus src/constants.ts / App.tsx) and proofs about the claims of
the natural-language specification.

Conventions: JavaScript numbers are modelled as exact rationals, machine
integers as Int/Nat with explicit modular reduction where the code relies on
wrapping, byte buffers as lists of naturals below 256, and the event-driven
handlers as pure state-transition functions. Each definition carries a doc
comment naming the source lines it embeds.
-/

namespace VibeDuet

/-! ## Audio PCM encoding: floatTo16BitPCM (HomeView.tsx lines 209 to 218) -/

/-- Truncation toward zero on rationals. This is the integer conversion that
JavaScript DataView.setInt16 applies to its number argument
(ToIntegerOrInfinity in the ECMAScript semantics). -/
def truncQ (q : ℚ) : ℤ := if q < 0 then ⌈q⌉ else ⌊q⌋

/-- Per-sample conversion performed by the loop body of floatTo16BitPCM:
first clamp via Math.max(-1, Math.min(1, sample)), then the branch
s < 0 ? s * 0x8000 : s * 0x7FFF, finally the setInt16 integer conversion. -/
def sampleToInt16 (x : ℚ) : ℤ :=
  let s := max (-1) (min 1 x)
  if s < 0 then truncQ (s * 32768) else truncQ (s * 32767)

/-- Little-endian byte pair of a 16-bit two's-complement integer, exactly as
DataView.setInt16 with littleEndian = true lays it out in the buffer. -/
def int16ToLEBytes (v : ℤ) : List ℕ :=
  let u := (v % 65536).toNat
  [u % 256, u / 256]

/-- floatTo16BitPCM (lines 209 to 218): writes each converted sample as two
bytes, little-endian, in input order into one contiguous buffer. -/
def floatTo16BitPCM : List ℚ → List ℕ
  | [] => []
  | x :: rest => int16ToLEBytes (sampleToInt16 x) ++ floatTo16BitPCM rest

/-- Verification-side decoder: reads a little-endian byte pair back as a
signed 16-bit integer. Used to state what the emitted bytes mean. -/
def int16FromLE (lo hi : ℕ) : ℤ :=
  let u := lo + 256 * hi
  if u < 32768 then (u : ℤ) else (u : ℤ) - 65536

/-- Verification-side decoder for a single two-byte frame. -/
def int16PairDecode : List ℕ → Option ℤ
  | [lo, hi] => some (int16FromLE lo hi)
  | _ => none

lemma sampleToInt16_bounds (x : ℚ) :
    -32768 ≤ sampleToInt16 x ∧ sampleToInt16 x ≤ 32767 := by
  unfold sampleToInt16 truncQ
  set s := max (-1) (min 1 x) with hs
  have h1 : (-1 : ℚ) ≤ s := le_max_left _ _
  have h2 : s ≤ 1 := max_le (by norm_num) (min_le_left _ _)
  by_cases hneg : s < 0
  · rw [if_pos hneg]
    have hc : s * 32768 < 0 := by nlinarith
    rw [if_pos hc]
    constructor
    · have hcast : ((-32768 : ℤ) : ℚ) ≤ s * 32768 := by push_cast; nlinarith
      calc (-32768 : ℤ) = ⌈((-32768 : ℤ) : ℚ)⌉ := (Int.ceil_intCast _).symm
        _ ≤ ⌈s * 32768⌉ := Int.ceil_mono hcast
    · have : ⌈s * 32768⌉ ≤ (0 : ℤ) := Int.ceil_le.mpr (by push_cast; linarith)
      omega
  · rw [if_neg hneg]
    push_neg at hneg
    have hc : ¬ s * 32767 < 0 := by nlinarith
    rw [if_neg hc]
    constructor
    · have : (0 : ℤ) ≤ ⌊s * 32767⌋ := Int.le_floor.mpr (by push_cast; nlinarith)
      omega
    · have hf : (⌊s * 32767⌋ : ℚ) ≤ 32767 := le_trans (Int.floor_le _) (by nlinarith)
      exact_mod_cast hf

lemma int16_roundtrip (v : ℤ) (h1 : -32768 ≤ v) (h2 : v ≤ 32767) :
    int16PairDecode (int16ToLEBytes v) = some v := by
  unfold int16ToLEBytes int16PairDecode int16FromLE
  have hmod1 : 0 ≤ v % 65536 := Int.emod_nonneg v (by norm_num)
  have hmod2 : v % 65536 < 65536 := Int.emod_lt_of_pos v (by norm_num)
  have hv : v % 65536 = v ∨ v % 65536 = v + 65536 := by omega
  simp only
  congr 1
  rcases hv with hv | hv <;> · rw [hv]; split <;> omega

/-- C6: floatTo16BitPCM clamps each input sample to the interval from -1 to 1,
scales by 32767 for non-negative values and 32768 for negative values
(truncating toward zero as setInt16 does), and writes each result as a 16-bit
signed little-endian integer pair; the samples 1, -1 and 0 map to 32767,
-32768 and 0 respectively, and out-of-range inputs behave as their clamped
value. -/
theorem C6_floatTo16BitPCM :
    (∀ xs : List ℚ, (floatTo16BitPCM xs).length = 2 * xs.length)
    ∧ (∀ x : ℚ, floatTo16BitPCM [x] = int16ToLEBytes (sampleToInt16 x)
        ∧ int16PairDecode (floatTo16BitPCM [x]) = some (sampleToInt16 x))
    ∧ (∀ x : ℚ, sampleToInt16 x = sampleToInt16 (max (-1) (min 1 x)))
    ∧ sampleToInt16 1 = 32767 ∧ sampleToInt16 (-1) = -32768 ∧ sampleToInt16 0 = 0 := by
  refine ⟨?_, ?_, ?_, ?_, ?_, ?_⟩
  · intro xs
    induction xs with
    | nil => rfl
    | cons x rest ih =>
        simp [floatTo16BitPCM, int16ToLEBytes, ih]
        ring
  · intro x
    have hb := sampleToInt16_bounds x
    refine ⟨by simp [floatTo16BitPCM], ?_⟩
    have : floatTo16BitPCM [x] = int16ToLEBytes (sampleToInt16 x) := by
      simp [floatTo16BitPCM]
    rw [this]
    exact int16_roundtrip _ hb.1 hb.2
  · intro x
    unfold sampleToInt16
    have h1 : (-1 : ℚ) ≤ max (-1) (min 1 x) := le_max_left _ _
    have h2 : max (-1) (min 1 x) ≤ 1 := max_le (by norm_num) (min_le_left _ _)
    have : max (-1) (min 1 (max (-1) (min 1 x))) = max (-1) (min 1 x) := by
      rw [min_eq_right h2, max_eq_right h1]
    simp only [this]
  · norm_num [sampleToInt16, truncQ]
  · have hcast : ((-32768 : ℚ)) = ((-32768 : ℤ) : ℚ) := by norm_num
    norm_num [sampleToInt16, truncQ]
    rw [hcast, Int.ceil_intCast]
  · norm_num [sampleToInt16, truncQ]

/-! ## Coordinate engine: screenToWorld (lines 629 to 640) and the rendering
transform (lines 701 to 703) -/

/-- A two-dimensional point with exact rational coordinates. -/
structure Vec2 where
  x : ℚ
  y : ℚ
  deriving DecidableEq

/-- screenToWorld (lines 629 to 640): with viewport size vw times vh, the
container bounding rectangle origin (rectLeft, rectTop), the pan offset and
zoom scale, maps a client-space point to world coordinates. -/
def screenToWorld (vw vh rectLeft rectTop : ℚ) (offset : Vec2) (scale : ℚ)
    (screenX screenY : ℚ) : Vec2 :=
  let cx := vw / 2
  let cy := vh / 2
  let relX := screenX - rectLeft
  let relY := screenY - rectTop
  ⟨(relX - cx - offset.x) / scale, (relY - cy - offset.y) / scale⟩

/-- The rendering world-to-screen map induced by the CSS transform on line 703,
translate(cx + offset.x, cy + offset.y) then scale(scale), applied inside the
container whose bounding rectangle starts at (rectLeft, rectTop): a world
point p appears at client position p * scale + center + offset + rect origin. -/
def worldToScreen (vw vh rectLeft rectTop : ℚ) (offset : Vec2) (scale : ℚ)
    (p : Vec2) : Vec2 :=
  ⟨p.x * scale + (vw / 2 + offset.x) + rectLeft,
   p.y * scale + (vh / 2 + offset.y) + rectTop⟩

/-- C7: for every scale, offset and viewport, screenToWorld inverts the
rendering world-to-screen transform (exactly, over the rationals), and with an
800 by 600 viewport, scale 1 and zero offset a click at screen (400, 300) maps
to world (0, 0). -/
theorem C7_screenToWorld_inverse (vw vh rl rt : ℚ) (offset : Vec2) (scale : ℚ)
    (p : Vec2) (h : scale ≠ 0) :
    screenToWorld vw vh rl rt offset scale
        (worldToScreen vw vh rl rt offset scale p).x
        (worldToScreen vw vh rl rt offset scale p).y = p
    ∧ screenToWorld 800 600 0 0 ⟨0, 0⟩ 1 400 300 = ⟨0, 0⟩ := by
  constructor
  · obtain ⟨px, py⟩ := p
    simp only [screenToWorld, worldToScreen, Vec2.mk.injEq]
    constructor <;> (field_simp; ring)
  · simp only [screenToWorld, Vec2.mk.injEq]
    norm_num

/-- Witness for C7 at a concrete viewport, pan, zoom and point. -/
theorem C7_screenToWorld_inverse_witness :
    screenToWorld 800 600 0 0 ⟨10, -5⟩ 2
        (worldToScreen 800 600 0 0 ⟨10, -5⟩ 2 ⟨3, 4⟩).x
        (worldToScreen 800 600 0 0 ⟨10, -5⟩ 2 ⟨3, 4⟩).y = ⟨3, 4⟩
    ∧ screenToWorld 800 600 0 0 ⟨0, 0⟩ 1 400 300 = ⟨0, 0⟩ :=
  C7_screenToWorld_inverse 800 600 0 0 ⟨10, -5⟩ 2 ⟨3, 4⟩ (by norm_num)

/-! ## Drawing surface and undo (content state lines 374 to 377, undo prop
line 857) -/

/-- A committed stroke path: the SVG path data string, its color and width
(paths state, line 374). -/
structure StrokePath where
  d : String
  color : String
  width : ℚ

/-- A sticky note: position and text (notes state, line 376). -/
structure StickyNote where
  x : ℚ
  y : ℚ
  text : String

/-- A stamped shape: position and color (shapes state, line 377). -/
structure StampShape where
  x : ℚ
  y : ℚ
  color : String

/-- The drawing-surface content state of ArenaView. -/
structure BoardState where
  paths : List StrokePath
  notes : List StickyNote
  shapes : List StampShape

/-- The undo handler passed to WhiteboardToolbar on line 857:
setPaths(p => p.slice(0, -1)). Array.prototype.slice(0, -1) returns the array
without its last element and returns the empty array unchanged; notes and
shapes are not touched. -/
def undo (b : BoardState) : BoardState :=
  { b with paths := b.paths.dropLast }

/-- C8: when the committed path list is non-empty, one undo removes exactly the
most recently committed path (the remaining paths are the original ones in
order) and leaves notes and shapes unchanged; when the path list is empty,
undo is a no-op. -/
theorem C8_undo (b : BoardState) :
    (∀ h : b.paths ≠ [],
        (undo b).paths.length + 1 = b.paths.length
        ∧ (undo b).paths ++ [b.paths.getLast h] = b.paths)
    ∧ (undo b).notes = b.notes
    ∧ (undo b).shapes = b.shapes
    ∧ (b.paths = [] → undo b = b) := by
  refine ⟨?_, rfl, rfl, ?_⟩
  · intro h
    constructor
    · have hlen : b.paths.length ≠ 0 := fun hc => h (List.eq_nil_of_length_eq_zero hc)
      simp only [undo, List.length_dropLast]
      omega
    · simp only [undo]
      exact List.dropLast_append_getLast h
  · intro h
    cases b with
    | mk p n s =>
        simp only at h
        simp [undo, h]

/-- A concrete one-path board used as the undo witness input. -/
def sampleBoard : BoardState :=
  { paths := [{ d := "M 0 0 L 1 1", color := "#ef4444", width := 3 }],
    notes := [], shapes := [] }

/-- Witness for C8 at a board with exactly one committed path. -/
theorem C8_undo_witness :
    (undo sampleBoard).paths.length + 1 = sampleBoard.paths.length
    ∧ (undo sampleBoard).notes = sampleBoard.notes
    ∧ (undo sampleBoard).shapes = sampleBoard.shapes :=
  ⟨((C8_undo sampleBoard).1 (by simp [sampleBoard])).1,
   (C8_undo sampleBoard).2.1, (C8_undo sampleBoard).2.2.1⟩

/-! ## Session result data: formatTime (lines 694 to 698) and the two onEnd
call sites (End Session, lines 906 to 912; error-state Return to Home,
line 729) -/

/-- JavaScript String.prototype.padStart(2, zero digit): prepends zero
characters until the string is at least two characters long. -/
def padStart2 (s : String) : String :=
  if s.length < 2 then String.mk (List.replicate (2 - s.length) '0') ++ s else s

/-- formatTime (lines 694 to 698): minutes are Math.floor(seconds / 60) and
seconds modulo 60, each rendered in decimal and padded to two characters. The
elapsed time is a whole number of one-second timer ticks. -/
def formatTime (seconds : ℕ) : String :=
  let mins := seconds / 60
  let secs := seconds % 60
  padStart2 (toString mins) ++ ":" ++ padStart2 (toString secs)

/-- A transcript entry: role, text and timestamp (types.ts shape used by
transcriptRef, line 387 and lines 509 to 513). -/
structure TranscriptEntry where
  role : String
  text : String
  timestamp : ℕ

/-- An image record of the session result (url, timestamp, prompt). -/
structure ImageRecord where
  url : String
  timestamp : ℕ
  prompt : String

/-- The SessionData result object handed to onEnd. -/
structure SessionData where
  duration : String
  topic : String
  transcript : List TranscriptEntry
  images : List ImageRecord

/-- The SessionData built by the End Session button (lines 906 to 912):
duration is formatTime(elapsedTime), images is the empty list. -/
def endSessionData (elapsed : ℕ) (topic : String)
    (transcript : List TranscriptEntry) : SessionData :=
  { duration := formatTime elapsed, topic := topic,
    transcript := transcript, images := [] }

/-- The SessionData built by the error-state Return to Home button (line 729):
the duration is the fixed literal string 0:00 regardless of elapsed time. -/
def returnHomeData (topic : String) : SessionData :=
  { duration := "0:00", topic := topic, transcript := [], images := [] }

/-- Character-level check of the claimed duration format: exactly two decimal
digits, a colon, and two decimal digits. -/
def isMMSSChars : List Char → Bool
  | [m1, m0, c, s1, s0] =>
      m1.isDigit && m0.isDigit && (c == ':') && s1.isDigit && s0.isDigit
  | _ => false

/-- The claimed duration format, as a predicate on strings. -/
def isZeroPaddedMMSS (s : String) : Bool := isMMSSChars s.data

/-- Counterexample to C9: the error-state Return to Home path hands the
downstream collaborator a SessionData whose duration is the literal 0:00,
which is not two-digit zero-padded MM:SS (and differs from the properly
formatted zero elapsed time, 00:00). -/
theorem C9_counterexample :
    (returnHomeData ("any topic")).duration = "0:00"
    ∧ isZeroPaddedMMSS ((returnHomeData ("any topic")).duration) = false
    ∧ formatTime 0 = "00:00"
    ∧ (returnHomeData ("any topic")).duration ≠ formatTime 0 := by
  refine ⟨rfl, ?_, ?_, ?_⟩ <;> decide

lemma pad2_check : ((List.range 100).all fun n =>
    match (padStart2 (toString n)).data with
    | [a, b] => a.isDigit && b.isDigit
    | _ => false) = true := by decide

lemma pad2_digits (n : ℕ) (h : n < 100) :
    ∃ a b : Char, (padStart2 (toString n)).data = [a, b]
      ∧ a.isDigit = true ∧ b.isDigit = true := by
  have hall := List.all_eq_true.mp pad2_check n (List.mem_range.mpr h)
  revert hall
  cases hd : (padStart2 (toString n)).data with
  | nil => intro hall; exact absurd hall (by simp)
  | cons a tl =>
      cases tl with
      | nil => intro hall; exact absurd hall (by simp)
      | cons b tl2 =>
          cases tl2 with
          | nil =>
              intro hall
              simp only [Bool.and_eq_true] at hall
              exact ⟨a, b, rfl, hall.1, hall.2⟩
          | cons c tl3 => intro hall; exact absurd hall (by simp)

/-- C9 amended: the End Session path does hand over a duration equal to
formatTime of the elapsed time, which is two-digit zero-padded MM:SS for every
session shorter than 100 minutes; but the error-state Return to Home path
hands over the fixed literal 0:00 instead. -/
theorem C9_amended (e : ℕ) (t : String) (tr : List TranscriptEntry)
    (h : e < 6000) :
    (endSessionData e t tr).duration = formatTime e
    ∧ isZeroPaddedMMSS (formatTime e) = true
    ∧ (returnHomeData t).duration = "0:00" := by
  refine ⟨rfl, ?_, rfl⟩
  have hm : e / 60 < 100 := by omega
  have hsec : e % 60 < 100 := by
    have := Nat.mod_lt e (show 0 < 60 by norm_num)
    omega
  obtain ⟨a, b, hab, ha, hb⟩ := pad2_digits (e / 60) hm
  obtain ⟨c, d, hcd, hc, hd⟩ := pad2_digits (e % 60) hsec
  have hdata : (formatTime e).data = [a, b, ':', c, d] := by
    show (padStart2 (toString (e / 60)) ++ ":" ++ padStart2 (toString (e % 60))).data
      = [a, b, ':', c, d]
    rw [String.data_append, String.data_append, hab, hcd]
    rfl
  show isMMSSChars (formatTime e).data = true
  rw [hdata]
  simp [isMMSSChars, ha, hb, hc, hd]

/-- Witness for C9 amended at 75 elapsed seconds. -/
theorem C9_amended_witness :
    (endSessionData 75 ("t") []).duration = formatTime 75
    ∧ isZeroPaddedMMSS (formatTime 75) = true
    ∧ (returnHomeData ("t")).duration = "0:00" :=
  C9_amended 75 ("t") [] (by norm_num)

/-! ## Audio capture pipeline and the mute flag (lines 436 to 458, mount
effect lines 590 to 607)

The onaudioprocess handler installed in the onopen callback reads the isMuted
binding of the render closure in which connectToLiveAPI was memoized
(useCallback with dependency list [topic, isMuted], line 546). The mount
effect has the empty dependency list (line 607) and therefore invokes only the
connectToLiveAPI instance of the first render, where isMuted is false; later
calls to setIsMuted produce new renders and new memoized instances, but the
already-installed onaudioprocess closure keeps reading the value captured at
connect time. The model therefore carries two flags: uiMuted, the current
React state toggled by the mute button, and capturedMuted, the value the
installed handler actually tests on line 437. -/

/-- An event of the capture pipeline: the user toggling the mute button
(setIsMuted(!isMuted), line 880), or one microphone frame delivered to the
installed onaudioprocess handler. -/
inductive CaptureEvent where
  | toggleMute : CaptureEvent
  | frame : CaptureEvent

/-- State of the capture pipeline after connect: the current isMuted React
state, the isMuted value captured by the installed onaudioprocess closure, and
the number of outbound audio payloads submitted to the channel. -/
structure CaptureState where
  uiMuted : Bool
  capturedMuted : Bool
  sentPayloads : ℕ

/-- One event step. A frame is dropped when the closure-captured flag is set
(line 437, if (isMuted) return) and otherwise encoded and submitted as one
audio/pcm payload (lines 447 to 457); the mute button flips only the React
state. -/
def captureStep (st : CaptureState) : CaptureEvent → CaptureState
  | .toggleMute => { st with uiMuted := !st.uiMuted }
  | .frame =>
      if st.capturedMuted then st
      else { st with sentPayloads := st.sentPayloads + 1 }

/-- Folding a sequence of events from a starting state. -/
def captureRun (st : CaptureState) (evs : List CaptureEvent) : CaptureState :=
  evs.foldl captureStep st

/-- The state right after connect on the mount path: ArenaView mounts with
isMuted false (line 380), so the installed closure captures false. -/
def mountCaptureState : CaptureState :=
  { uiMuted := false, capturedMuted := false, sentPayloads := 0 }

lemma captureRun_capturedMuted (evs : List CaptureEvent) (st : CaptureState) :
    (captureRun st evs).capturedMuted = st.capturedMuted := by
  induction evs generalizing st with
  | nil => rfl
  | cons e rest ih =>
      show (captureRun (captureStep st e) rest).capturedMuted = st.capturedMuted
      rw [ih]
      cases e with
      | toggleMute => rfl
      | frame =>
          show (if st.capturedMuted then st
            else { st with sentPayloads := st.sentPayloads + 1 }).capturedMuted
            = st.capturedMuted
          split <;> rfl

/-- C1 fails on the code: after the mount-path connect, no later event sequence
ever changes the flag the installed handler tests, so every microphone frame
produces an outbound payload even when the user has toggled mute on. In
particular, after the single event of toggling mute on, the UI is muted and
the next frame is still encoded and submitted. -/
theorem C1_mute_stale_closure :
    (∀ evs : List CaptureEvent,
        (captureRun mountCaptureState evs).capturedMuted = false
        ∧ (captureStep (captureRun mountCaptureState evs) .frame).sentPayloads
            = (captureRun mountCaptureState evs).sentPayloads + 1)
    ∧ (captureRun mountCaptureState [.toggleMute]).uiMuted = true
    ∧ (captureStep (captureRun mountCaptureState [.toggleMute]) .frame).sentPayloads
        = 1 := by
  refine ⟨?_, rfl, rfl⟩
  intro evs
  have hcap := captureRun_capturedMuted evs mountCaptureState
  refine ⟨hcap, ?_⟩
  show (if (captureRun mountCaptureState evs).capturedMuted
      then (captureRun mountCaptureState evs)
      else { captureRun mountCaptureState evs with
             sentPayloads := (captureRun mountCaptureState evs).sentPayloads + 1 }).sentPayloads
    = (captureRun mountCaptureState evs).sentPayloads + 1
  rw [hcap]
  rfl

/-! ## Playback scheduling (onmessage audio branch, lines 487 to 494) -/

/-- One scheduled clip together with the cursor values around it: the cursor
before the arrival, the device clock reading now at arrival, the clip
duration, the chosen start time, and the cursor after the advance. -/
structure ScheduledClip where
  cursorBefore : ℚ
  now : ℚ
  dur : ℚ
  start : ℚ
  cursorAfter : ℚ

/-- The scheduling loop of the onmessage audio branch, run over a sequence of
arrivals (pairs of the device clock reading and the clip duration) with no
intervening interruption: if the cursor is in the past, snap it to now
(lines 489 to 491); start the clip at the cursor (line 493); advance the
cursor by the clip duration (line 494). -/
def scheduleClips : ℚ → List (ℚ × ℚ) → List ScheduledClip
  | _, [] => []
  | c, (now, dur) :: rest =>
      let start := if c < now then now else c
      ⟨c, now, dur, start, start + dur⟩ :: scheduleClips (start + dur) rest

lemma scheduleClips_head_cursorBefore (c : ℚ) (arr : List (ℚ × ℚ))
    (x : ScheduledClip) (tl : List ScheduledClip)
    (h : scheduleClips c arr = x :: tl) : x.cursorBefore = c := by
  cases arr with
  | nil => simp [scheduleClips] at h
  | cons a rest =>
      obtain ⟨now, dur⟩ := a
      simp only [scheduleClips, List.cons.injEq] at h
      rw [← h.1]

lemma scheduleClips_elem (arr : List (ℚ × ℚ)) (c : ℚ)
    (h : ∀ a ∈ arr, 0 ≤ a.2) :
    ∀ x ∈ scheduleClips c arr,
      x.start = (if x.cursorBefore < x.now then x.now else x.cursorBefore)
      ∧ x.cursorAfter = x.start + x.dur
      ∧ x.cursorBefore ≤ x.start ∧ x.start ≤ x.cursorAfter ∧ 0 ≤ x.dur := by
  induction arr generalizing c with
  | nil => intro x hx; simp [scheduleClips] at hx
  | cons a rest ih =>
      obtain ⟨now, dur⟩ := a
      intro x hx
      have hdur : (0 : ℚ) ≤ dur := h (now, dur) (List.mem_cons_self _ _)
      simp only [scheduleClips, List.mem_cons] at hx
      rcases hx with hx | hx
      · subst hx
        dsimp only
        refine ⟨rfl, rfl, ?_, ?_, hdur⟩
        · split
          · rename_i hlt; exact le_of_lt hlt
          · exact le_refl _
        · linarith
      · exact ih _ (fun b hb => h b (List.mem_cons_of_mem _ hb)) x hx

lemma scheduleClips_chain_link (arr : List (ℚ × ℚ)) (c : ℚ) :
    List.Chain' (fun x y : ScheduledClip => y.cursorBefore = x.cursorAfter)
      (scheduleClips c arr) := by
  induction arr generalizing c with
  | nil => simp [scheduleClips]
  | cons a rest ih =>
      obtain ⟨now, dur⟩ := a
      simp only [scheduleClips]
      rw [List.chain'_cons']
      refine ⟨?_, ih _⟩
      intro y hy
      cases hsch : scheduleClips
          ((if c < now then now else c) + dur) rest with
      | nil => rw [hsch] at hy; simp at hy
      | cons z tl =>
          rw [hsch] at hy
          simp only [List.head?_cons, Option.mem_def, Option.some.injEq] at hy
          subst hy
          exact scheduleClips_head_cursorBefore _ _ _ _ hsch

/-- C2: over any arrival sequence with no intervening interruption and
non-negative clip durations, the cursor is non-decreasing (each step goes from
cursorBefore to cursorAfter and consecutive steps share the intermediate
cursor value), each clip starts exactly at the cursor after the underrun
snap-forward, the cursor advances by exactly the clip duration, and
consecutive clips never overlap and are back-to-back whenever no underrun snap
intervenes. -/
theorem C2_cursor_monotone (c0 : ℚ) (arrivals : List (ℚ × ℚ))
    (h : ∀ a ∈ arrivals, 0 ≤ a.2) :
    (∀ x ∈ scheduleClips c0 arrivals,
        x.start = (if x.cursorBefore < x.now then x.now else x.cursorBefore)
        ∧ x.cursorAfter = x.start + x.dur
        ∧ x.cursorBefore ≤ x.cursorAfter)
    ∧ List.Chain' (fun x y : ScheduledClip => y.cursorBefore = x.cursorAfter)
        (scheduleClips c0 arrivals)
    ∧ List.Chain' (fun x y : ScheduledClip =>
        x.start + x.dur ≤ y.start
        ∧ (y.now ≤ x.start + x.dur → y.start = x.start + x.dur))
        (scheduleClips c0 arrivals) := by
  have helem := scheduleClips_elem arrivals c0 h
  have hlink := scheduleClips_chain_link arrivals c0
  refine ⟨?_, hlink, ?_⟩
  · intro x hx
    obtain ⟨h1, h2, h3, h4, h5⟩ := helem x hx
    exact ⟨h1, h2, le_trans h3 h4⟩
  · rw [List.chain'_iff_get]
    intro i hi
    set l := scheduleClips c0 arrivals with hl
    have hx := helem _ (List.get_mem l i (by omega))
    have hy := helem _ (List.get_mem l (i + 1) (by omega))
    have hlinkxy := List.chain'_iff_get.mp hlink i hi
    obtain ⟨hx1, hx2, hx3, hx4, hx5⟩ := hx
    obtain ⟨hy1, hy2, hy3, hy4, hy5⟩ := hy
    constructor
    · calc (l.get ⟨i, by omega⟩).start + (l.get ⟨i, by omega⟩).dur
          = (l.get ⟨i, by omega⟩).cursorAfter := hx2.symm
        _ = (l.get ⟨i + 1, by omega⟩).cursorBefore := hlinkxy.symm
        _ ≤ (l.get ⟨i + 1, by omega⟩).start := hy3
    · intro hnostall
      have hyb : (l.get ⟨i + 1, by omega⟩).cursorBefore
          = (l.get ⟨i, by omega⟩).start + (l.get ⟨i, by omega⟩).dur := by
        rw [hlinkxy, hx2]
      rw [hy1, hyb]
      rw [if_neg (not_lt.mpr hnostall)]

/-- Witness for C2 on the scenario of the spec: clip A of duration 1 arriving
at device time 0, clip B of duration 1 arriving at device time one half (no
snap, back-to-back at 1), clip C of duration 2 arriving at device time 5
(underrun snap to 5). -/
theorem C2_cursor_monotone_witness :
    List.Chain' (fun x y : ScheduledClip =>
        x.start + x.dur ≤ y.start
        ∧ (y.now ≤ x.start + x.dur → y.start = x.start + x.dur))
      (scheduleClips 0 [(0, 1), (1/2, 1), (5, 2)]) :=
  (C2_cursor_monotone 0 [(0, 1), (1/2, 1), (5, 2)]
    (by intro a ha; simp only [List.mem_cons] at ha
        rcases ha with h | h | h | h <;> first | (subst h; norm_num) | cases h)).2.2

/-! ## Interruption handling (onmessage interrupted branch, lines 517 to 525) -/

/-- A tracked AudioBufferSourceNode: its scheduled start time on the output
device clock and whether stop() has been called on it. -/
structure SourceNode where
  startTime : ℚ
  stopped : Bool

/-- The playback-side state the interrupted branch touches: the tracked live
set (sourceNodesRef), the speaking signal (isAiSpeaking) and the playback
cursor (nextStartTimeRef). -/
structure PlaybackNodes where
  liveSet : List SourceNode
  speaking : Bool
  cursor : ℚ

/-- The interrupted branch (lines 517 to 525): clear the speaking signal,
reset the cursor to 0, call stop() on every tracked node (the try/catch on
line 522 makes this total), and clear the set. The second component returns
the nodes as they are after their stop() calls. -/
def handleInterrupted (st : PlaybackNodes) : PlaybackNodes × List SourceNode :=
  ({ liveSet := [], speaking := false, cursor := 0 },
   st.liveSet.map (fun n => { n with stopped := true }))

/-- C3: after the interruption branch runs, the live set is empty, the
speaking signal is false and the cursor equals 0; every tracked node, whatever
its scheduled start time (so including clips scheduled but not yet started),
has been stopped, and exactly the previously tracked nodes were stopped. -/
theorem C3_interruption (st : PlaybackNodes) :
    (handleInterrupted st).1.liveSet = []
    ∧ (handleInterrupted st).1.speaking = false
    ∧ (handleInterrupted st).1.cursor = 0
    ∧ ((handleInterrupted st).2).length = st.liveSet.length
    ∧ (∀ n ∈ (handleInterrupted st).2, n.stopped = true)
    ∧ ((handleInterrupted st).2).map SourceNode.startTime
        = st.liveSet.map SourceNode.startTime := by
  refine ⟨rfl, rfl, rfl, ?_, ?_, ?_⟩
  · simp [handleInterrupted]
  · intro n hn
    simp only [handleInterrupted, List.mem_map] at hn
    obtain ⟨m, _, hm⟩ := hn
    rw [← hm]
  · simp [handleInterrupted]

/-- A playback state with one clip mid-play (start time 0) and one clip
scheduled but not yet started (start time 10), used as the C3 witness input. -/
def samplePlayback : PlaybackNodes :=
  { liveSet := [{ startTime := 0, stopped := false },
                { startTime := 10, stopped := false }],
    speaking := true, cursor := 7 }

/-- Witness for C3 at a state holding a playing clip and a not-yet-started
clip. -/
theorem C3_interruption_witness :
    (handleInterrupted samplePlayback).1.liveSet = []
    ∧ (handleInterrupted samplePlayback).1.speaking = false
    ∧ (handleInterrupted samplePlayback).1.cursor = 0
    ∧ (∀ n ∈ (handleInterrupted samplePlayback).2, n.stopped = true) :=
  ⟨(C3_interruption samplePlayback).1, (C3_interruption samplePlayback).2.1,
   (C3_interruption samplePlayback).2.2.1,
   (C3_interruption samplePlayback).2.2.2.2.1⟩

/-! ## Teardown (mount effect cleanup, lines 595 to 606)

The cleanup returned by the mount effect runs on unmount on every exit path
(explicit end, error, navigation away, since each of those unmounts
ArenaView). Its whole body is: if sessionPromiseRef.current is set, chain
s.close() onto it; if inputAudioContextRef.current is set, close it; if
audioContextRef.current is set, close it. connectToLiveAPI creates both audio
contexts (lines 406 to 409) before requesting the microphone (line 412), and
nothing anywhere stops the tracks of the getUserMedia stream. -/

/-- Resource flags of one ArenaView mount. contextsCreated: both audio
contexts were constructed; micAcquired: the getUserMedia stream was obtained;
sessionStarted: sessionPromiseRef.current was assigned (line 539);
channelCloseRequested: close() was chained onto the session promise;
inputCtxClosed / outputCtxClosed: close() was called on the two contexts;
micStreamStopped: the microphone stream tracks were stopped. -/
structure ArenaResources where
  contextsCreated : Bool
  micAcquired : Bool
  sessionStarted : Bool
  channelCloseRequested : Bool
  inputCtxClosed : Bool
  outputCtxClosed : Bool
  micStreamStopped : Bool
  deriving DecidableEq

/-- The mount effect cleanup (lines 596 to 606): chain close() onto the
session promise when it exists, close the input context when it exists, close
the output context when it exists. No statement touches the microphone
stream. -/
def cleanupArena (r : ArenaResources) : ArenaResources :=
  { r with
    channelCloseRequested := r.channelCloseRequested || r.sessionStarted,
    inputCtxClosed := r.inputCtxClosed || r.contextsCreated,
    outputCtxClosed := r.outputCtxClosed || r.contextsCreated }

/-- The resource state of a fully connected session before teardown. -/
def connectedResources : ArenaResources :=
  { contextsCreated := true, micAcquired := true, sessionStarted := true,
    channelCloseRequested := false, inputCtxClosed := false,
    outputCtxClosed := false, micStreamStopped := false }

/-- Counterexample to C4: on teardown of a fully connected session the
microphone stream is never stopped, so the capture device is not released
(even though both audio contexts are closed and the channel close is
requested). -/
theorem C4_counterexample :
    connectedResources.micAcquired = true
    ∧ (cleanupArena connectedResources).micStreamStopped = false
    ∧ (cleanupArena connectedResources).inputCtxClosed = true
    ∧ (cleanupArena connectedResources).outputCtxClosed = true
    ∧ (cleanupArena connectedResources).channelCloseRequested = true := by
  decide

/-- C4 amended: on leaving the arena by any path the cleanup requests closing
the remote channel (when establishment was started) and closes both audio
device contexts; it executes even if channel establishment never completed
and is idempotent; but it never stops the microphone stream, so the capture
device is not released, and no statement stops the delivery of capture
frames. -/
theorem C4_amended (r : ArenaResources) (h : r.contextsCreated = true) :
    (cleanupArena r).inputCtxClosed = true
    ∧ (cleanupArena r).outputCtxClosed = true
    ∧ (r.sessionStarted = true → (cleanupArena r).channelCloseRequested = true)
    ∧ (r.sessionStarted = false →
        (cleanupArena r).channelCloseRequested = r.channelCloseRequested)
    ∧ cleanupArena (cleanupArena r) = cleanupArena r
    ∧ (cleanupArena r).micStreamStopped = r.micStreamStopped := by
  cases r with
  | mk cc ma ss ccr icc occ mss =>
      simp only at h
      subst h
      refine ⟨?_, ?_, ?_, ?_, ?_, rfl⟩
      · simp [cleanupArena]
      · simp [cleanupArena]
      · intro hs
        simp only at hs
        subst hs
        simp [cleanupArena]
      · intro hs
        simp only at hs
        subst hs
        simp [cleanupArena]
      · simp [cleanupArena, Bool.or_assoc]

/-- Witness for C4 amended at the fully connected resource state. -/
theorem C4_amended_witness :
    (cleanupArena connectedResources).inputCtxClosed = true
    ∧ (cleanupArena connectedResources).outputCtxClosed = true
    ∧ (connectedResources.sessionStarted = true →
        (cleanupArena connectedResources).channelCloseRequested = true)
    ∧ (connectedResources.sessionStarted = false →
        (cleanupArena connectedResources).channelCloseRequested
          = connectedResources.channelCloseRequested)
    ∧ cleanupArena (cleanupArena connectedResources)
        = cleanupArena connectedResources
    ∧ (cleanupArena connectedResources).micStreamStopped
        = connectedResources.micStreamStopped :=
  C4_amended connectedResources rfl

/-! ## Malformed inbound audio payloads (onmessage audio branch, lines 463
to 503)

The audio branch first calls setIsAiSpeaking(true) (line 467), then decodes
the base64 payload to bytes and constructs new Int16Array(byteArr.buffer)
(line 473). When the byte length is not a multiple of 2 that constructor
throws a RangeError; the handler is an async callback with no try/catch, so
the throw aborts the rest of this invocation (the mutations already performed
persist) and surfaces as a rejected promise, while later inbound messages are
still dispatched to fresh invocations of the handler. -/

/-- Decode a byte buffer as consecutive little-endian 16-bit signed samples
(the Int16Array view of line 473). -/
def decodeInt16Pairs : List ℕ → List ℤ
  | lo :: hi :: rest => int16FromLE lo hi :: decodeInt16Pairs rest
  | _ => []

/-- The Int16Array constructor on a byte buffer: defined only when the byte
length is a multiple of 2, otherwise it throws (modelled as none). -/
def int16ArrayOfBytes (bytes : List ℕ) : Option (List ℤ) :=
  if bytes.length % 2 = 0 then some (decodeInt16Pairs bytes) else none

/-- Scheduler-level state touched by onmessage: the speaking signal, the
playback cursor, and the list of scheduled clips as (start, duration) pairs
in schedule order. -/
structure SchedulerState where
  speaking : Bool
  cursor : ℚ
  clips : List (ℚ × ℚ)
  deriving DecidableEq

/-- One inbound server message: an audio payload (its decoded bytes), a
turn-complete marker, or an interruption marker. -/
inductive ServerMsg where
  | audio : List ℕ → ServerMsg
  | turnComplete : ServerMsg
  | interrupted : ServerMsg

/-- One onmessage invocation at device clock reading now. Audio branch: set
speaking, then decode; on a malformed buffer the constructor throws and the
invocation ends there; otherwise build the clip (duration is sample count over
the 24000 output rate, line 479), snap the cursor forward on underrun
(lines 489 to 491), schedule at the cursor and advance it (lines 493 to 494).
The turn-complete branch only appends a transcript entry; the interrupted
branch is the one embedded for C3, shown here at scheduler granularity. -/
def processMsg (now : ℚ) (st : SchedulerState) : ServerMsg → SchedulerState
  | .audio bytes =>
      let st1 : SchedulerState := { st with speaking := true }
      match int16ArrayOfBytes bytes with
      | none => st1
      | some samples =>
          let dur : ℚ := (samples.length : ℚ) / 24000
          let start := if st1.cursor < now then now else st1.cursor
          { st1 with cursor := start + dur, clips := st1.clips ++ [(start, dur)] }
  | .turnComplete => st
  | .interrupted => { speaking := false, cursor := 0, clips := [] }

/-- Folding a sequence of inbound messages at a fixed device clock reading. -/
def processMsgs (now : ℚ) (st : SchedulerState) (msgs : List ServerMsg) :
    SchedulerState :=
  msgs.foldl (processMsg now) st

/-- C5: a malformed audio payload (decoded byte length not a multiple of the
16-bit sample size) is recoverable: no clip is scheduled for it, the playback
cursor is left unchanged, and processing of subsequent inbound messages
continues exactly as if the malformed message had only set the speaking
signal. -/
theorem C5_malformed_recoverable (st : SchedulerState) (now : ℚ)
    (bytes : List ℕ) (h : bytes.length % 2 ≠ 0) :
    (processMsg now st (.audio bytes)).cursor = st.cursor
    ∧ (processMsg now st (.audio bytes)).clips = st.clips
    ∧ ∀ rest, processMsgs now st (ServerMsg.audio bytes :: rest)
        = processMsgs now { st with speaking := true } rest := by
  have hdec : int16ArrayOfBytes bytes = none := by
    simp [int16ArrayOfBytes, h]
  have hstep : processMsg now st (.audio bytes) = { st with speaking := true } := by
    simp [processMsg, hdec]
  refine ⟨by rw [hstep], by rw [hstep], ?_⟩
  intro rest
  show (ServerMsg.audio bytes :: rest).foldl (processMsg now) st
    = processMsgs now { st with speaking := true } rest
  rw [List.foldl_cons, hstep]
  rfl

/-- Witness for C5: a three-byte payload arriving at a scheduler holding
cursor 3 leaves the cursor and the clip list unchanged, and a following
well-formed payload is still processed. -/
theorem C5_malformed_recoverable_witness :
    (processMsg 5 { speaking := false, cursor := 3, clips := [] }
        (.audio [0, 0, 1])).cursor
      = ({ speaking := false, cursor := 3, clips := [] } : SchedulerState).cursor
    ∧ (processMsg 5 { speaking := false, cursor := 3, clips := [] }
        (.audio [0, 0, 1])).clips
      = ({ speaking := false, cursor := 3, clips := [] } : SchedulerState).clips
    ∧ processMsgs 5 { speaking := false, cursor := 3, clips := [] }
        [ServerMsg.audio [0, 0, 1], ServerMsg.audio [0, 0]]
      = processMsgs 5 { speaking := true, cursor := 3, clips := [] }
        [ServerMsg.audio [0, 0]] := by
  have hth := C5_malformed_recoverable
    { speaking := false, cursor := 3, clips := [] } 5 [0, 0, 1] (by norm_num)
  exact ⟨hth.1, hth.2.1, hth.2.2 [ServerMsg.audio [0, 0]]⟩

/-! ## HomeView start interaction (HomeView.tsx lines 31 to 86) -/

/-- The outcome of the image-generation request: the request rejected (or
threw), or it resolved with a list of content parts, each part carrying
optional inline image data (part.inlineData.data). A response without
candidates behaves as an empty part list. -/
inductive GenOutcome where
  | failed : GenOutcome
  | ok : List (Option String) → GenOutcome

/-- The extraction loop of lines 64 to 71: scan the parts in order; the first
part with inline data yields the data URL (the base64 payload behind the
data:image/png prefix); otherwise the URL stays empty. -/
def extractImageUrl : List (Option String) → String
  | [] => ""
  | some d :: _ => "data:image/png;base64," ++ d
  | none :: rest => extractImageUrl rest

/-- The JavaScript String.prototype.trim builtin used on line 32: remove
whitespace from both ends of the string. -/
def jsTrim (s : String) : String :=
  String.mk
    (((s.data.dropWhile Char.isWhitespace).reverse.dropWhile
        Char.isWhitespace).reverse)

/-- The HomeView state the handler touches: the entered topic and the loading
flag. -/
structure HomeState where
  topic : String
  isLoading : Bool
  deriving DecidableEq

/-- handleStartInteraction (lines 31 to 86) as a state transition returning
the new state and the onStart invocation, if any. Empty trimmed topic: return
before touching anything (line 32). Otherwise setIsLoading(true); a rejected
generation or an empty extracted URL lands in the catch block, which only
clears the loading flag (lines 80 to 85); a non-empty URL reaches
onStart(topic, imageUrl) (line 78) with loading still set (the view unmounts
on transition). The topic state is never written by the handler. -/
def handleStartInteraction (st : HomeState) (gen : GenOutcome) :
    HomeState × Option (String × String) :=
  if jsTrim st.topic = "" then (st, none)
  else
    match gen with
    | .failed => ({ st with isLoading := false }, none)
    | .ok parts =>
        let url := extractImageUrl parts
        if url = "" then ({ st with isLoading := false }, none)
        else ({ st with isLoading := true }, some (st.topic, url))

/-- C10: onStart is invoked exactly when the trimmed topic is non-empty and
the generation produced an inline image, and then with the entered topic and
the non-empty data URL; on every run in which generation fails or yields no
inline image, onStart is not invoked, the loading flag is cleared (so the
view shows the input state again), and the topic is left unchanged. -/
theorem C10_handleStartInteraction (st : HomeState) (gen : GenOutcome) :
    (∀ t url, (handleStartInteraction st gen).2 = some (t, url) →
        jsTrim st.topic ≠ "" ∧ t = st.topic ∧ url ≠ "")
    ∧ (handleStartInteraction st gen).1.topic = st.topic
    ∧ (jsTrim st.topic ≠ "" → gen = .failed →
        handleStartInteraction st gen = ({ st with isLoading := false }, none))
    ∧ (∀ parts, jsTrim st.topic ≠ "" → gen = .ok parts →
        extractImageUrl parts = "" →
        handleStartInteraction st gen = ({ st with isLoading := false }, none))
    ∧ (∀ parts, jsTrim st.topic ≠ "" → gen = .ok parts →
        extractImageUrl parts ≠ "" →
        (handleStartInteraction st gen).2
          = some (st.topic, extractImageUrl parts)) := by
  refine ⟨?_, ?_, ?_, ?_, ?_⟩
  · intro t url hsome
    unfold handleStartInteraction at hsome
    by_cases htrim : jsTrim st.topic = ""
    · rw [if_pos htrim] at hsome
      exact absurd hsome (by simp)
    · rw [if_neg htrim] at hsome
      refine ⟨htrim, ?_⟩
      cases gen with
      | failed => exact absurd hsome (by simp)
      | ok parts =>
          simp only at hsome
          by_cases hurl : extractImageUrl parts = ""
          · rw [if_pos hurl] at hsome
            exact absurd hsome (by simp)
          · rw [if_neg hurl] at hsome
            simp only [Prod.mk.injEq, Option.some.injEq, Prod.mk.injEq] at hsome
            exact ⟨hsome.1.symm, hsome.2 ▸ hurl⟩
  · unfold handleStartInteraction
    by_cases htrim : jsTrim st.topic = ""
    · rw [if_pos htrim]
    · rw [if_neg htrim]
      cases gen with
      | failed => rfl
      | ok parts =>
          simp only
          by_cases hurl : extractImageUrl parts = ""
          · rw [if_pos hurl]
          · rw [if_neg hurl]
  · intro htrim hgen
    subst hgen
    unfold handleStartInteraction
    rw [if_neg htrim]
  · intro parts htrim hgen hurl
    subst hgen
    unfold handleStartInteraction
    rw [if_neg htrim]
    simp only
    rw [if_pos hurl]
  · intro parts htrim hgen hurl
    subst hgen
    unfold handleStartInteraction
    rw [if_neg htrim]
    simp only
    rw [if_neg hurl]

/-- A concrete HomeView state used by the C10 witness. -/
def sampleHome : HomeState := { topic := "Space travel", isLoading := false }

/-- Concrete generation parts used by the C10 witness: one part without inline
data, then one with inline data. -/
def sampleParts : List (Option String) := [none, some ("abc123")]

/-- Witness for C10: with a non-empty topic and a response carrying inline
image data, onStart is invoked with the topic and the data URL. -/
theorem C10_handleStartInteraction_witness :
    (handleStartInteraction sampleHome (.ok sampleParts)).2
      = some (sampleHome.topic, extractImageUrl sampleParts) :=
  (C10_handleStartInteraction sampleHome (.ok sampleParts)).2.2.2.2
    sampleParts (by decide) rfl (by decide)

end VibeDuet
